import Mathlib

/-!
Verification of the homework-assignment tracker (`src/app.py`).

The embedding models datetimes as microseconds since the Unix epoch (`Int`),
calendar dates as day numbers since 1970-01-01 (`Int`), and MongoDB documents
of the `assignments` collection as a Lean structure.  Route handlers are
modelled as pure functions of the request parameters, the authenticated
user's id, the current time and the full document store; MongoDB's filtered,
sorted `find` is modelled by `List.filter` followed by a sort on the
handler's sort specification.  `serialize_assignment` (from `models.py`)
maps each document independently and so never changes which documents a
listing holds nor their order; listings are therefore modelled at the
document level.
-/

namespace Spogs

/-- Microseconds per hour. -/
def usPerHour : Int := 3600000000

/-- Microseconds per day. -/
def usPerDay : Int := 86400000000

/-- `datetime.combine(t.date(), datetime.min.time())`: truncate a datetime to
the midnight that starts its calendar day. -/
def midnightOf (t : Int) : Int := t - t % usPerDay

/-- `datetime.combine(d, datetime.min.time())`: a calendar date as the
datetime at its midnight. -/
def dateToDatetime (d : Int) : Int := d * usPerDay

/-- `datetime.combine(d, datetime.max.time())`: a calendar date as the last
microsecond of its day. -/
def endOfDay (d : Int) : Int := d * usPerDay + (usPerDay - 1)

/-! ### Python string primitives -/

/-- Lower-case a single ASCII character, as `str.lower` does on ASCII. -/
def charLower (c : Char) : Char :=
  if 'A' ≤ c ∧ c ≤ 'Z' then Char.ofNat (c.toNat + 32) else c

/-- Python `str.lower` (ASCII fragment). -/
def pyLower (s : String) : String := ⟨s.data.map charLower⟩

/-- Drop leading and trailing whitespace from a character list. -/
def stripChars (l : List Char) : List Char :=
  ((l.dropWhile Char.isWhitespace).reverse.dropWhile Char.isWhitespace).reverse

/-- Python `str.strip()`. -/
def pyStrip (s : String) : String := ⟨stripChars s.data⟩

/-- The numeric value of an ASCII decimal digit, if `c` is one. -/
def digitVal? (c : Char) : Option Int :=
  if '0' ≤ c ∧ c ≤ '9' then some (Int.ofNat (c.toNat - '0'.toNat)) else Option.none

/-- Accumulate a decimal number over a digit list; fails on a non-digit. -/
def parseDigitsAux (acc : Int) : List Char → Option Int
  | [] => some acc
  | c :: cs =>
    match digitVal? c with
    | some v => parseDigitsAux (acc * 10 + v) cs
    | Option.none => Option.none

/-- A non-empty all-digit character list as a number. -/
def parseDigits : List Char → Option Int
  | [] => Option.none
  | c :: cs => parseDigitsAux 0 (c :: cs)

/-- Python `int(s)`: optional sign after stripping whitespace, then decimal
digits; anything else raises `ValueError`, modelled as `none`. -/
def pyInt (s : String) : Option Int :=
  match (pyStrip s).data with
  | '-' :: cs => (parseDigits cs).map (fun n => -n)
  | '+' :: cs => parseDigits cs
  | cs => parseDigits cs

/-! ### Calendar dates -/

/-- Number of days in month `m` of (proleptic Gregorian) year `y`. -/
def daysInMonth (y m : Int) : Int :=
  if m = 2 then (if y % 4 = 0 ∧ (y % 100 ≠ 0 ∨ y % 400 = 0) then 29 else 28)
  else if m = 4 ∨ m = 6 ∨ m = 9 ∨ m = 11 then 30 else 31

/-- Days since 1970-01-01 of the civil date `y-m-d` (Gregorian). -/
def daysFromCivil (y m d : Int) : Int :=
  let y2 := if m ≤ 2 then y - 1 else y
  let era := Int.fdiv y2 400
  let yoe := y2 - era * 400
  let mp := (m + 9) % 12
  let doy := Int.fdiv (153 * mp + 2) 5 + d - 1
  let doe := yoe * 365 + Int.fdiv yoe 4 - Int.fdiv yoe 100 + doy
  era * 146097 + doe - 719468

/-- `date.fromisoformat` / `strptime(s, "%Y-%m-%d")`: parse a `YYYY-MM-DD`
string into a day number, validating month and day ranges; a string of any
other shape raises `ValueError`, modelled as `none`. -/
def parseIsoDate (s : String) : Option Int :=
  match s.data with
  | [y1, y2, y3, y4, c1, m1, m2, c2, d1, d2] =>
    if c1 = '-' ∧ c2 = '-' then
      match digitVal? y1, digitVal? y2, digitVal? y3, digitVal? y4,
            digitVal? m1, digitVal? m2, digitVal? d1, digitVal? d2 with
      | some a, some b, some c, some d, some e, some f, some g, some h =>
        let y := a * 1000 + b * 100 + c * 10 + d
        let m := e * 10 + f
        let dd := g * 10 + h
        if 1 ≤ m ∧ m ≤ 12 ∧ 1 ≤ dd ∧ dd ≤ daysInMonth y m then
          some (daysFromCivil y m dd)
        else Option.none
      | _, _, _, _, _, _, _, _ => Option.none
    else Option.none
  | _ => Option.none

/-! ### Generic insertion sort (the model of MongoDB `sort`) -/

/-- Insert `a` into `l` before the first element `b` with `le a b`. -/
def insertLe {α : Type} (le : α → α → Bool) (a : α) : List α → List α
  | [] => [a]
  | b :: l => if le a b then a :: b :: l else b :: insertLe le a l

/-- Sort a list by the boolean comparison `le` (insertion sort). -/
def sortByLe {α : Type} (le : α → α → Bool) : List α → List α
  | [] => []
  | a :: l => insertLe le a (sortByLe le l)

theorem perm_insertLe {α : Type} (le : α → α → Bool) (a : α) (l : List α) :
    (insertLe le a l).Perm (a :: l) := by
  induction l with
  | nil => simp [insertLe]
  | cons b l ih =>
    simp only [insertLe]
    split
    · exact List.Perm.refl _
    · exact (ih.cons b).trans (List.Perm.swap a b l)

theorem perm_sortByLe {α : Type} (le : α → α → Bool) (l : List α) :
    (sortByLe le l).Perm l := by
  induction l with
  | nil => exact List.Perm.refl _
  | cons a l ih => exact (perm_insertLe le a (sortByLe le l)).trans (ih.cons a)

theorem mem_sortByLe {α : Type} (le : α → α → Bool) (a : α) (l : List α) :
    a ∈ sortByLe le l ↔ a ∈ l :=
  (perm_sortByLe le l).mem_iff

theorem mem_insertLe {α : Type} (le : α → α → Bool) (a b : α) (l : List α) :
    b ∈ insertLe le a l ↔ b = a ∨ b ∈ l := by
  rw [(perm_insertLe le a l).mem_iff]; simp

theorem pairwise_insertLe {α : Type} (le : α → α → Bool)
    (htrans : ∀ a b c, le a b = true → le b c = true → le a c = true)
    (htotal : ∀ a b, (le a b || le b a) = true)
    (a : α) (l : List α) (hl : l.Pairwise (fun x y => le x y = true)) :
    (insertLe le a l).Pairwise (fun x y => le x y = true) := by
  induction l with
  | nil => simp [insertLe]
  | cons b l ih =>
    rcases List.pairwise_cons.mp hl with ⟨hb, hl'⟩
    simp only [insertLe]
    split
    · rename_i hab
      refine List.pairwise_cons.mpr ⟨?_, hl⟩
      intro x hx
      rcases List.mem_cons.mp hx with rfl | hx
      · exact hab
      · exact htrans a b x hab (hb x hx)
    · rename_i hab
      have hba : le b a = true := by
        have := htotal a b
        simp only [Bool.or_eq_true] at this
        rcases this with h1 | h1
        · exact absurd h1 hab
        · exact h1
      refine List.pairwise_cons.mpr ⟨?_, ih hl'⟩
      intro x hx
      rcases (mem_insertLe le a x l).mp hx with rfl | hx
      · exact hba
      · exact hb x hx

theorem pairwise_sortByLe {α : Type} (le : α → α → Bool)
    (htrans : ∀ a b c, le a b = true → le b c = true → le a c = true)
    (htotal : ∀ a b, (le a b || le b a) = true)
    (l : List α) :
    (sortByLe le l).Pairwise (fun x y => le x y = true) := by
  induction l with
  | nil => simp [sortByLe]
  | cons a l ih => exact pairwise_insertLe le htrans htotal a (sortByLe le l) ih

/-! ### Status derivation (`calculate_assignment_status`, src/app.py lines 81-130) -/

/-- The transient flags computed by `calculate_assignment_status`. -/
structure StatusFlags where
  is_overdue : Bool
  is_due_soon : Bool
deriving Repr, DecidableEq

/-- The dynamic value found in a record's `due_date` field: absent (or another
falsy value), a string, a `date`, a `datetime`, or any other Python value. -/
inductive DueValue where
  | none
  | str (s : String)
  | dateOnly (d : Int)
  | datetime (t : Int)
  | other
deriving Repr, DecidableEq

/-- The part of an assignment dictionary that `calculate_assignment_status`
reads: its `completed` flag and its `due_date` field. -/
structure StatusInput where
  completed : Bool
  due_date : DueValue
deriving Repr, DecidableEq

/-- Lines 114-125: given `now` and the due date converted to a datetime,
set `is_overdue` when the due day's midnight precedes today's midnight and
`is_due_soon` when `0 <= due_datetime - now <= 24 hours`. -/
def statusFrom (now due_datetime : Int) : StatusFlags :=
  let now_midnight := midnightOf now
  let due_midnight := midnightOf due_datetime
  { is_overdue := decide (due_midnight < now_midnight),
    is_due_soon := decide (0 ≤ due_datetime - now ∧ due_datetime - now ≤ 24 * usPerHour) }

/-- src/app.py lines 81-130.  `completed` short-circuits to both-false; a
falsy `due_date` (absent or `""`) returns both-false; a string is parsed with
`strptime "%Y-%m-%d"` (a `ValueError` is caught and yields both-false); a
`date` is upgraded to its midnight; a value of any other type returns
both-false; otherwise the flags come from `statusFrom`.  `now` stands for
`datetime.now()`. -/
def calculate_assignment_status (now : Int) (assignment : StatusInput) : StatusFlags :=
  let status : StatusFlags := { is_overdue := false, is_due_soon := false }
  if assignment.completed then status
  else
    match assignment.due_date with
    | DueValue.none => status
    | DueValue.str s =>
      if s = "" then status
      else
        match parseIsoDate s with
        | some d => statusFrom now (dateToDatetime d)
        | Option.none => status
    | DueValue.dateOnly d => statusFrom now (dateToDatetime d)
    | DueValue.datetime t => statusFrom now t
    | DueValue.other => status

/-! ### Stored assignment documents -/

/-- A stored document of the `assignments` collection.  The due date is
stored as a datetime (pydantic turns the submitted calendar date into one);
`estimated_time` is nullable. -/
structure Doc where
  _id : Nat
  user_id : String
  title : String
  course : String
  notes : String
  due_date : Int
  priority : Int
  estimated_time : Option Int
  completed : Bool
  created_at : Int
  updated_at : Int
deriving Repr, DecidableEq

/-- The sort specification `[("due_date", 1), ("created_at", -1)]` used by
the index, search and export handlers, as a boolean comparison. -/
def docLe (a b : Doc) : Bool :=
  decide (a.due_date < b.due_date ∨ (a.due_date = b.due_date ∧ b.created_at ≤ a.created_at))

/-- String comparison backing Python's `sorted` on course names. -/
def strLe (a b : String) : Bool := decide (a ≤ b)

/-! ### Query construction (search/export handlers) -/

/-- An inclusive `$gte`/`$lte` range, either bound optional. -/
structure RangeQ where
  gte : Option Int
  lte : Option Int
deriving Repr, DecidableEq

/-- The MongoDB query dictionary the search and export handlers build:
`user_id`, an optional case-insensitive `$or` regex over title/notes, an
optional exact course match, optional due-date and estimated-time ranges,
and an optional `{"completed": {"$ne": True}}` entry. -/
structure Query where
  user_id : String
  textOr : Option String
  course : Option String
  due_date : Option RangeQ
  estimated_time : Option RangeQ
  completedNeTrue : Bool
deriving Repr, DecidableEq

/-- The raw query-string parameters read by the search/export handlers
(each defaulting to `""` when absent). -/
structure Filters where
  q : String
  course : String
  due_start : String
  due_end : String
  time_min : String
  time_max : String
  show_completed : String
deriving Repr, DecidableEq

/-- A request with no query-string parameters. -/
def emptyFilters : Filters :=
  { q := "", course := "", due_start := "", due_end := "",
    time_min := "", time_max := "", show_completed := "" }

/-- src/app.py lines 305-368: build the search query from the request
parameters.  Every date or numeric bound whose string fails to parse is
skipped (`except ValueError: pass`); a range key is added only when at least
one of its bounds parsed. -/
def buildSearchQuery (uid : String) (f : Filters) : Query :=
  let text_query := pyStrip f.q
  let course_filter := pyStrip f.course
  let due_start := pyStrip f.due_start
  let due_end := pyStrip f.due_end
  let time_min := pyStrip f.time_min
  let time_max := pyStrip f.time_max
  let show_completed := pyLower f.show_completed = "true"
  let textOr := if text_query = "" then Option.none else some text_query
  let course := if course_filter = "" then Option.none else some course_filter
  let due_date :=
    if due_start = "" ∧ due_end = "" then Option.none
    else
      let dq : RangeQ :=
        { gte := if due_start = "" then Option.none
                 else (parseIsoDate due_start).map dateToDatetime,
          lte := if due_end = "" then Option.none
                 else (parseIsoDate due_end).map endOfDay }
      if dq.gte = Option.none ∧ dq.lte = Option.none then Option.none else some dq
  let estimated_time :=
    if time_min = "" ∧ time_max = "" then Option.none
    else
      let tq : RangeQ :=
        { gte := if time_min = "" then Option.none else pyInt time_min,
          lte := if time_max = "" then Option.none else pyInt time_max }
      if tq.gte = Option.none ∧ tq.lte = Option.none then Option.none else some tq
  { user_id := uid, textOr := textOr, course := course, due_date := due_date,
    estimated_time := estimated_time, completedNeTrue := !show_completed }

/-- src/app.py lines 402-461: the export handler rebuilds the very same
query from the same parameters (the code is duplicated verbatim). -/
def buildExportQuery (uid : String) (f : Filters) : Query :=
  let text_query := pyStrip f.q
  let course_filter := pyStrip f.course
  let due_start := pyStrip f.due_start
  let due_end := pyStrip f.due_end
  let time_min := pyStrip f.time_min
  let time_max := pyStrip f.time_max
  let show_completed := pyLower f.show_completed = "true"
  let textOr := if text_query = "" then Option.none else some text_query
  let course := if course_filter = "" then Option.none else some course_filter
  let due_date :=
    if due_start = "" ∧ due_end = "" then Option.none
    else
      let dq : RangeQ :=
        { gte := if due_start = "" then Option.none
                 else (parseIsoDate due_start).map dateToDatetime,
          lte := if due_end = "" then Option.none
                 else (parseIsoDate due_end).map endOfDay }
      if dq.gte = Option.none ∧ dq.lte = Option.none then Option.none else some dq
  let estimated_time :=
    if time_min = "" ∧ time_max = "" then Option.none
    else
      let tq : RangeQ :=
        { gte := if time_min = "" then Option.none else pyInt time_min,
          lte := if time_max = "" then Option.none else pyInt time_max }
      if tq.gte = Option.none ∧ tq.lte = Option.none then Option.none else some tq
  { user_id := uid, textOr := textOr, course := course, due_date := due_date,
    estimated_time := estimated_time, completedNeTrue := !show_completed }

/-! ### Query evaluation (model of MongoDB matching) -/

/-- Does the character list `n` start the character list `h`? -/
def startsWithChars : List Char → List Char → Bool
  | [], _ => true
  | _ :: _, [] => false
  | a :: as, b :: bs => a == b && startsWithChars as bs

/-- Does `n` occur as a contiguous sublist of `h`? -/
def occursIn (n : List Char) : List Char → Bool
  | [] => n.isEmpty
  | c :: t => startsWithChars n (c :: t) || occursIn n t

/-- `{"$regex": pattern, "$options": "i"}` on a metacharacter-free pattern:
case-insensitive substring match. -/
def regexICSearch (pattern field : String) : Bool :=
  occursIn (pyLower pattern).data (pyLower field).data

/-- Evaluate a `$gte`/`$lte` range against a present field value. -/
def inRange (r : RangeQ) (v : Int) : Bool :=
  (match r.gte with | Option.none => true | some g => decide (g ≤ v)) &&
  (match r.lte with | Option.none => true | some l => decide (v ≤ l))

/-- Evaluate a range against a nullable field: a `null` value matches no
`$gte`/`$lte` comparison. -/
def inRangeOpt (r : RangeQ) (v : Option Int) : Bool :=
  match v with
  | Option.none => false
  | some n => inRange r n

/-- Whether a stored document matches a search/export query (all query
entries combine conjunctively, as in a MongoDB filter document). -/
def matchesQuery (qy : Query) (d : Doc) : Bool :=
  (d.user_id == qy.user_id) &&
  (match qy.textOr with
   | Option.none => true
   | some t => regexICSearch t d.title || regexICSearch t d.notes) &&
  (match qy.course with
   | Option.none => true
   | some c => d.course == c) &&
  (match qy.due_date with
   | Option.none => true
   | some r => inRange r d.due_date) &&
  (match qy.estimated_time with
   | Option.none => true
   | some r => inRangeOpt r d.estimated_time) &&
  (!qy.completedNeTrue || !d.completed)

/-- src/app.py lines 146-151: the landing-page query
`{"$or": [{"completed": {"$ne": True}}, {"completed": True, "updated_at": {"$gte": cutoff}}]}`. -/
def matchesIndexQuery (cutoff : Int) (d : Doc) : Bool :=
  !d.completed || (d.completed && decide (cutoff ≤ d.updated_at))

/-! ### Route handlers -/

/-- What an assignment route responds with. -/
inductive HttpResponse where
  | page (assignments : List Doc)
  | redirectLogin
deriving Repr, DecidableEq

/-- Outcome of one request to `/`: whether the handler executed the
repository query (`col.find`), and the response it returned. -/
structure IndexOutcome where
  repoQueryRan : Bool
  response : HttpResponse
deriving Repr, DecidableEq

/-- The document list rendered by the landing page: the index query's
matches sorted by `[("due_date", 1), ("created_at", -1)]`. -/
def landingList (docs : List Doc) (now : Int) : List Doc :=
  let twenty_four_hours_ago := now - 24 * usPerHour
  sortByLe docLe (docs.filter (matchesIndexQuery twenty_four_hours_ago))

/-- src/app.py lines 141-164 (`index`).  The handler runs the repository
query, serializes, annotates and groups its results (lines 143-160)
unconditionally; only afterwards (line 162) does it test
`current_user.is_authenticated` and either render the page or redirect to
the login page.  There is no owner filter in the query. -/
def index (isAuthenticated : Bool) (docs : List Doc) (now : Int) : IndexOutcome :=
  let assignments := landingList docs now
  if isAuthenticated then
    { repoQueryRan := true, response := HttpResponse.page assignments }
  else
    { repoQueryRan := true, response := HttpResponse.redirectLogin }

/-- `col.distinct("course", {"course": {"$ne": ""}})` (line 378): the
distinct non-empty course values over the whole collection — the filter
carries no `user_id` entry. -/
def distinctCourses (docs : List Doc) : List String :=
  ((docs.filter (fun d => !(d.course == ""))).map Doc.course).dedup

/-- What the search page renders: the (at most 100) matching assignments
and the course-suggestion list. -/
structure SearchPage where
  assignments : List Doc
  all_courses : List String
deriving Repr, DecidableEq

/-- src/app.py lines 301-396 (`search`).  Builds the query from the request
parameters, runs it sorted by `[("due_date", 1), ("created_at", -1)]` with
`limit(100)`, and computes `sorted(all_courses)` from the unscoped
`distinct` of line 378.  (Per-element serialization and status annotation
do not change which documents are listed nor their order.) -/
def search (uid : String) (docs : List Doc) (f : Filters) : SearchPage :=
  let query := buildSearchQuery uid f
  let assignments := (sortByLe docLe (docs.filter (matchesQuery query))).take 100
  let all_courses := distinctCourses docs
  { assignments := assignments, all_courses := sortByLe strLe all_courses }

/-- The fixed CSV header row (line 471). -/
def csvHeader : List String :=
  ["Title", "Course", "Due Date", "Priority", "Estimated Time (min)", "Notes", "Completed"]

/-- One CSV data row (lines 475-483).  The due-date cell holds the
serialized due date (its exact text comes from `serialize_assignment`);
`assignment.get("estimated_time", "") or ""` renders both `None` and `0`
as the empty string; `completed` renders as `Yes`/`No`. -/
def csvRow (a : Doc) : List String :=
  [a.title, a.course, toString a.due_date, toString a.priority,
   (match a.estimated_time with
    | some n => if n = 0 then "" else toString n
    | Option.none => ""),
   a.notes,
   if a.completed then "Yes" else "No"]

/-- src/app.py lines 398-490 (`export_assignments`).  Rebuilds the same
query, runs it with the same sort but no limit, and writes a header row
followed by one row per assignment, in order.  Returns the fetched
assignment list together with the CSV rows. -/
def export_assignments (uid : String) (docs : List Doc) (f : Filters) :
    List Doc × List (List String) :=
  let query := buildExportQuery uid f
  let assignments := sortByLe docLe (docs.filter (matchesQuery query))
  (assignments, csvHeader :: assignments.map csvRow)

/-! ### Toggle and edit reads (src/app.py lines 213-233 and 247-260) -/

/-- Outcome of a POST to `/toggle/<id>`. -/
inductive ToggleResult where
  | invalidId
  | notFound
  | serverError
deriving Repr, DecidableEq

/-- `col.find_one({"_id": oid})` (lines 222 and 257): the first document
with the given id, regardless of owner — the filter has no `user_id`. -/
def findOneById : List Doc → Nat → Option Doc
  | [], _ => Option.none
  | d :: rest, oid => if d._id == oid then some d else findOneById rest oid

/-- src/app.py lines 213-233 (`toggle_assignment`), for a well-formed id.
Reads the document by `{"_id": oid}` alone and answers 404 when absent.
When the document exists it computes the negation of the `completed` it
read, but the `update_one` call of lines 227-231 passes the
`{"user_id": current_user.id}` dictionary as the third positional argument
— pymongo's boolean `upsert` parameter, validated with
`validate_boolean("upsert", ...)` — so the call raises `TypeError` before
any write: the request errors with the store unchanged, and `requester`
constrains nothing. -/
def toggle_assignment (requester : String) (docs : List Doc) (oid : Nat) (now : Int) :
    ToggleResult × List Doc :=
  match findOneById docs oid with
  | Option.none => (ToggleResult.notFound, docs)
  | some doc =>
    let new_completed := !doc.completed
    (ToggleResult.serverError, docs)

/-- Outcome of a GET to `/edit/<id>`. -/
inductive EditGetResult where
  | invalidId
  | notFoundRedirect
  | page (assignment : Doc)
deriving Repr, DecidableEq

/-- src/app.py lines 247-260 and 297-299 (`edit_assignment`, GET, for a
well-formed id): reads with `col.find_one({"_id": oid})` — no owner
condition — flashes not-found and redirects when the id is absent, and
otherwise renders the edit form over the (serialized) document; the
requesting user is never consulted on this path. -/
def edit_assignment_get (requester : String) (docs : List Doc) (oid : Nat) : EditGetResult :=
  match findOneById docs oid with
  | Option.none => EditGetResult.notFoundRedirect
  | some doc => EditGetResult.page doc

/-! ### Shared lemmas -/

theorem docLe_trans : ∀ a b c : Doc, docLe a b = true → docLe b c = true → docLe a c = true := by
  intro a b c hab hbc
  simp only [docLe, decide_eq_true_eq] at hab hbc ⊢
  rcases hab with h1 | ⟨h1, h2⟩ <;> rcases hbc with h3 | ⟨h3, h4⟩ <;> omega

theorem docLe_total : ∀ a b : Doc, (docLe a b || docLe b a) = true := by
  intro a b
  simp only [docLe, Bool.or_eq_true, decide_eq_true_eq]
  omega

theorem strLe_trans : ∀ a b c : String, strLe a b = true → strLe b c = true → strLe a c = true := by
  intro a b c hab hbc
  simp only [strLe, decide_eq_true_eq] at hab hbc ⊢
  exact le_trans hab hbc

theorem strLe_total : ∀ a b : String, (strLe a b || strLe b a) = true := by
  intro a b
  simp only [strLe, Bool.or_eq_true, decide_eq_true_eq]
  exact le_total a b

/-- The two derived flags of `statusFrom` are never simultaneously true:
overdue forces the due datetime strictly below today's midnight, hence below
`now`, making the time remaining negative. -/
theorem statusFrom_not_both (now t : Int) :
    ¬((statusFrom now t).is_overdue = true ∧ (statusFrom now t).is_due_soon = true) := by
  intro h
  simp only [statusFrom, midnightOf, usPerDay, usPerHour, decide_eq_true_eq] at h
  omega

/-- C3: status derivation.  A completed assignment gets both flags false
whatever its due date; a due datetime on yesterday's calendar day of an
uncompleted assignment yields overdue-only; a due datetime 23 hours ahead
yields due-soon-only; and `calculate_assignment_status` never sets both
flags for any input. -/
theorem calculate_status_spec :
    (∀ now due, calculate_assignment_status now ⟨true, due⟩ = ⟨false, false⟩) ∧
    (∀ now t, midnightOf t = midnightOf now - usPerDay →
      calculate_assignment_status now ⟨false, DueValue.datetime t⟩ = ⟨true, false⟩) ∧
    (∀ now, calculate_assignment_status now
      ⟨false, DueValue.datetime (now + 23 * usPerHour)⟩ = ⟨false, true⟩) ∧
    (∀ now a, ¬((calculate_assignment_status now a).is_overdue = true ∧
                (calculate_assignment_status now a).is_due_soon = true)) := by
  refine ⟨?_, ?_, ?_, ?_⟩
  · intro now due
    simp [calculate_assignment_status]
  · intro now t h
    simp only [calculate_assignment_status, statusFrom, Bool.false_eq_true, if_false,
      StatusFlags.mk.injEq, decide_eq_true_eq, decide_eq_false_iff_not,
      midnightOf, usPerDay, usPerHour] at h ⊢
    omega
  · intro now
    simp only [calculate_assignment_status, statusFrom, Bool.false_eq_true, if_false,
      StatusFlags.mk.injEq, decide_eq_true_eq, decide_eq_false_iff_not,
      midnightOf, usPerDay, usPerHour]
    omega
  · intro now a
    rcases a with ⟨c, due⟩
    cases c with
    | true => simp [calculate_assignment_status]
    | false =>
      cases due with
      | none => simp [calculate_assignment_status]
      | other => simp [calculate_assignment_status]
      | dateOnly d =>
        simpa [calculate_assignment_status] using statusFrom_not_both now (dateToDatetime d)
      | datetime t =>
        simpa [calculate_assignment_status] using statusFrom_not_both now t
      | str s =>
        by_cases hs : s = ""
        · simp [calculate_assignment_status, hs]
        · cases hp : parseIsoDate s with
          | none => simp [calculate_assignment_status, hs, hp]
          | some d =>
            simpa [calculate_assignment_status, hs, hp] using
              statusFrom_not_both now (dateToDatetime d)

/-- Witness for C3 at yesterday = day 0, now = day 1's midnight. -/
theorem calculate_status_spec_witness :
    midnightOf 0 = midnightOf usPerDay - usPerDay ∧
    calculate_assignment_status usPerDay ⟨false, DueValue.datetime 0⟩ = ⟨true, false⟩ :=
  ⟨by decide, calculate_status_spec.2.1 usPerDay 0 (by decide)⟩

/-- C4: a `due_date` that is absent, of an unexpected type, or a string that
fails to parse, makes `calculate_assignment_status` return (it is total, so
it never raises) with both flags false. -/
theorem calculate_status_malformed (now : Int) (c : Bool) (s : String)
    (hs : parseIsoDate s = Option.none) :
    calculate_assignment_status now ⟨c, DueValue.str s⟩ = ⟨false, false⟩ ∧
    calculate_assignment_status now ⟨c, DueValue.none⟩ = ⟨false, false⟩ ∧
    calculate_assignment_status now ⟨c, DueValue.other⟩ = ⟨false, false⟩ := by
  refine ⟨?_, ?_, ?_⟩ <;> cases c <;> by_cases h : s = "" <;>
    simp [calculate_assignment_status, h, hs]

/-- Witness for C4 at the unparseable string `"not-a-date"`. -/
theorem calculate_status_malformed_witness :
    parseIsoDate "not-a-date" = Option.none ∧
    (calculate_assignment_status 0 ⟨false, DueValue.str "not-a-date"⟩ = ⟨false, false⟩ ∧
     calculate_assignment_status 0 ⟨false, DueValue.none⟩ = ⟨false, false⟩ ∧
     calculate_assignment_status 0 ⟨false, DueValue.other⟩ = ⟨false, false⟩) :=
  ⟨by decide, calculate_status_malformed 0 false "not-a-date" (by decide)⟩

/-- A concrete stored assignment owned by user `"U"`. -/
def sampleDoc : Doc :=
  { _id := 1, user_id := "U", title := "hw1", course := "Math", notes := "",
    due_date := 0, priority := 2, estimated_time := Option.none, completed := false,
    created_at := 0, updated_at := 0 }

/-- C1: the toggle and edit handlers do not scope their repository reads by
owner.  With the store holding one assignment owned by `"U"`, the
`find_one({"_id": oid})` lookup issued for the distinct user `"V"` returns
`"U"`'s document rather than reporting not-found; the edit GET renders
`"U"`'s record to `"V"`, and the toggle POST by `"V"` does not answer
not-found either (it reaches the broken `update_one` call and errors) —
the requesting user's identifier is not a match condition of these reads. -/
theorem cross_user_read_not_scoped :
    sampleDoc.user_id = "U" ∧ "V" ≠ "U" ∧
    findOneById [sampleDoc] 1 = some sampleDoc ∧
    edit_assignment_get "V" [sampleDoc] 1 = EditGetResult.page sampleDoc ∧
    (toggle_assignment "V" [sampleDoc] 1 7).1 ≠ ToggleResult.notFound := by
  decide

/-- C2: for an unauthenticated request to `/`, the handler still executes
the repository query — the `find` of line 153 runs before the
`is_authenticated` test of line 162 — and only then redirects to login. -/
theorem index_queries_db_before_auth_check (docs : List Doc) (now : Int) :
    (index false docs now).repoQueryRan = true ∧
    (index false docs now).response = HttpResponse.redirectLogin := by
  exact ⟨rfl, rfl⟩

/-- C9: the toggle handler never completes a write.  For every store, id
and time the store after a toggle request equals the store before it — when
the document is found, the handler's `update_one` call raises `TypeError`
on its dictionary-valued `upsert` argument before writing — and an owner's
toggle of their own stored assignment answers with a server error, its
`completed` field untouched. -/
theorem toggle_never_writes :
    (∀ (requester : String) (docs : List Doc) (oid : Nat) (now : Int),
      (toggle_assignment requester docs oid now).2 = docs) ∧
    (toggle_assignment "U" [sampleDoc] 1 7).1 = ToggleResult.serverError ∧
    (toggle_assignment "U" [sampleDoc] 1 7).2 = [sampleDoc] := by
  refine ⟨?_, by decide, by decide⟩
  intro requester docs oid now
  cases h : findOneById docs oid <;> simp [toggle_assignment, h]

/-- C8: landing-page visibility.  The landing page renders `landingList`;
a document appears on it exactly when it is not completed or its
`updated_at` lies within the last 24 hours of the request time, and in
particular a record completed 23 hours before the request appears while one
completed 25 hours before does not. -/
theorem landing_visibility :
    (∀ docs now, (index true docs now).response = HttpResponse.page (landingList docs now)) ∧
    (∀ docs now (d : Doc), d ∈ landingList docs now ↔
        d ∈ docs ∧ (d.completed = false ∨ now - 24 * usPerHour ≤ d.updated_at)) ∧
    (∀ now, ({ sampleDoc with completed := true, updated_at := now - 23 * usPerHour } : Doc) ∈
        landingList [{ sampleDoc with completed := true, updated_at := now - 23 * usPerHour }] now) ∧
    (∀ now, ({ sampleDoc with completed := true, updated_at := now - 25 * usPerHour } : Doc) ∉
        landingList [{ sampleDoc with completed := true, updated_at := now - 25 * usPerHour }] now) := by
  have hmem : ∀ docs now (d : Doc), d ∈ landingList docs now ↔
      d ∈ docs ∧ (d.completed = false ∨ now - 24 * usPerHour ≤ d.updated_at) := by
    intro docs now d
    unfold landingList
    rw [mem_sortByLe, List.mem_filter]
    refine and_congr_right (fun _ => ?_)
    cases hc : d.completed <;> simp [matchesIndexQuery, hc]
  refine ⟨fun docs now => rfl, hmem, ?_, ?_⟩
  · intro now
    rw [hmem]
    refine ⟨List.mem_singleton_self _, Or.inr ?_⟩
    simp only [usPerHour]
    omega
  · intro now
    rw [hmem]
    rintro ⟨-, h | h⟩
    · simp at h
    · simp only [usPerHour] at h
      omega

/-- Witness for C8: a record completed 23 hours before a request at time 0
appears on the landing page. -/
theorem landing_visibility_witness :
    ({ sampleDoc with completed := true, updated_at := 0 - 23 * usPerHour } : Doc) ∈
      landingList [{ sampleDoc with completed := true, updated_at := 0 - 23 * usPerHour }] 0 :=
  landing_visibility.2.2.1 0

/-- The landing, search and export orderings as a proposition: due date
ascending, ties broken by creation time descending. -/
def dueCreatedSorted (l : List Doc) : Prop :=
  l.Pairwise (fun a b => a.due_date < b.due_date ∨
    (a.due_date = b.due_date ∧ b.created_at ≤ a.created_at))

/-- Any `sortByLe docLe` output satisfies the listing order. -/
theorem dueCreatedSorted_sortByLe (l : List Doc) : dueCreatedSorted (sortByLe docLe l) :=
  (pairwise_sortByLe docLe docLe_trans docLe_total l).imp
    (fun h => by simpa [docLe, decide_eq_true_eq] using h)

/-- C6: every listing — landing page, search results, export — is sorted by
due date ascending and, among equal due dates, by creation time descending,
whatever the order of `docs` (the insertion order); each listing is a
permutation of its query's matches (the search page caps at 100). -/
theorem listings_sorted (docs : List Doc) (now : Int) (uid : String) (f : Filters) :
    dueCreatedSorted (landingList docs now) ∧
    dueCreatedSorted ((search uid docs f).assignments) ∧
    dueCreatedSorted ((export_assignments uid docs f).1) ∧
    (landingList docs now).Perm
      (docs.filter (matchesIndexQuery (now - 24 * usPerHour))) ∧
    ((export_assignments uid docs f).1).Perm
      (docs.filter (matchesQuery (buildExportQuery uid f))) := by
  refine ⟨dueCreatedSorted_sortByLe _, ?_, dueCreatedSorted_sortByLe _,
    perm_sortByLe _ _, perm_sortByLe _ _⟩
  exact List.Pairwise.sublist (List.take_sublist 100 _) (dueCreatedSorted_sortByLe _)

/-- C7: with identical filters, the search listing is exactly the first 100
documents of the uncapped export listing (so it has at most 100 entries,
each export record yields exactly one CSV data row after the header, in
order, and the export's length is the full match count — no cap). -/
theorem search_is_capped_export (uid : String) (docs : List Doc) (f : Filters) :
    (search uid docs f).assignments = ((export_assignments uid docs f).1).take 100 ∧
    (search uid docs f).assignments.length ≤ 100 ∧
    (export_assignments uid docs f).2 =
      csvHeader :: ((export_assignments uid docs f).1).map csvRow ∧
    ((search uid docs f).assignments).map csvRow =
      (((export_assignments uid docs f).2).drop 1).take 100 ∧
    (export_assignments uid docs f).1.length =
      (docs.filter (matchesQuery (buildExportQuery uid f))).length := by
  have hq : buildExportQuery uid f = buildSearchQuery uid f := rfl
  refine ⟨rfl, ?_, rfl, ?_, (perm_sortByLe _ _).length_eq⟩
  · have hs : (search uid docs f).assignments =
        ((export_assignments uid docs f).1).take 100 := rfl
    rw [hs]
    exact List.length_take_le 100 _
  · show ((sortByLe docLe (docs.filter (matchesQuery (buildSearchQuery uid f)))).take 100).map csvRow
        = ((sortByLe docLe (docs.filter (matchesQuery (buildExportQuery uid f)))).map csvRow).take 100
    rw [hq, List.map_take]

/-- The lower due-date bound present in a query, if any. -/
def queryDueGte (q : Query) : Option Int :=
  match q.due_date with
  | Option.none => Option.none
  | some r => r.gte

/-- The upper due-date bound present in a query, if any. -/
def queryDueLte (q : Query) : Option Int :=
  match q.due_date with
  | Option.none => Option.none
  | some r => r.lte

/-- The lower estimated-time bound present in a query, if any. -/
def queryTimeGte (q : Query) : Option Int :=
  match q.estimated_time with
  | Option.none => Option.none
  | some r => r.gte

/-- The upper estimated-time bound present in a query, if any. -/
def queryTimeLte (q : Query) : Option Int :=
  match q.estimated_time with
  | Option.none => Option.none
  | some r => r.lte

/-- C5: the search query builder's error policy.  Each of `due_start`,
`due_end`, `time_min`, `time_max` that fails to parse leaves the
corresponding bound absent from the built query (the builder is a total
function: the request never errors), and with no parameters at all and
`show_completed` unset the query matches exactly the requesting user's
records whose `completed` is not true. -/
theorem search_filter_policy :
    (∀ uid f,
      (parseIsoDate (pyStrip f.due_start) = Option.none →
        queryDueGte (buildSearchQuery uid f) = Option.none) ∧
      (parseIsoDate (pyStrip f.due_end) = Option.none →
        queryDueLte (buildSearchQuery uid f) = Option.none) ∧
      (pyInt (pyStrip f.time_min) = Option.none →
        queryTimeGte (buildSearchQuery uid f) = Option.none) ∧
      (pyInt (pyStrip f.time_max) = Option.none →
        queryTimeLte (buildSearchQuery uid f) = Option.none)) ∧
    (∀ uid (docs : List Doc),
      docs.filter (matchesQuery (buildSearchQuery uid emptyFilters)) =
        docs.filter (fun d => d.user_id == uid && !d.completed)) := by
  constructor
  · intro uid f
    refine ⟨fun h => ?_, fun h => ?_, fun h => ?_, fun h => ?_⟩ <;>
      simp only [buildSearchQuery, queryDueGte, queryDueLte, queryTimeGte, queryTimeLte,
        h, Option.map_none'] <;>
      split_ifs <;> simp_all
  · intro uid docs
    have hq : buildSearchQuery uid emptyFilters =
        { user_id := uid, textOr := Option.none, course := Option.none,
          due_date := Option.none, estimated_time := Option.none,
          completedNeTrue := true } := rfl
    refine List.filter_congr (fun d _ => ?_)
    rw [hq]
    simp [matchesQuery]

/-- A request whose four range parameters are all unparseable. -/
def badFilters : Filters :=
  { q := "", course := "", due_start := "2024-13-99", due_end := "soon",
    time_min := "ten", time_max := "1e3", show_completed := "" }

/-- Witness for C5: the unparseable `due_start` of `badFilters` leaves the
lower due-date bound absent. -/
theorem search_filter_policy_witness :
    parseIsoDate (pyStrip badFilters.due_start) = Option.none ∧
    queryDueGte (buildSearchQuery "u" badFilters) = Option.none :=
  ⟨by decide, (search_filter_policy.1 "u" badFilters).1 (by decide)⟩

/-- C10: the course-suggestion list of the search page is the distinct
non-empty course values over the whole collection, with no owner filter: a
course value occurring only in `"U"`'s assignments is shown to the distinct
requesting user `"V"`. -/
theorem course_suggestions_cross_user :
    (∀ uid (docs : List Doc) f c,
      c ∈ (search uid docs f).all_courses ↔ (¬c = "" ∧ ∃ d ∈ docs, d.course = c)) ∧
    (sampleDoc.user_id = "U" ∧ ¬"U" = "V" ∧
      "Math" ∈ (search "V" [sampleDoc] emptyFilters).all_courses) := by
  constructor
  · intro uid docs f c
    show c ∈ sortByLe strLe (distinctCourses docs) ↔ _
    rw [mem_sortByLe]
    simp only [distinctCourses, List.mem_dedup, List.mem_map, List.mem_filter]
    constructor
    · rintro ⟨d, ⟨hd, hne⟩, rfl⟩
      exact ⟨by simpa using hne, d, hd, rfl⟩
    · rintro ⟨hne, d, hd, rfl⟩
      exact ⟨d, ⟨hd, by simpa using hne⟩, rfl⟩
  · exact ⟨rfl, by decide, by decide⟩

end Spogs
